import Mathlib

/-!
Shallow embedding of the Suno client (`main.py`): the authentication state
machine of class `Suno` (sign_in, request_otp, submit_otp, _keep_alive), the
generation / status / download operations, and the orchestration in `main`
(multi-account fallback loop, completion-poll loop, download loop).

HTTP is modelled as an external environment: every operation takes the
response(s) the remote side would return and produces the trace of requests
it issued, the resulting object state, and its Python outcome (normal return
vs. raised exception, the latter carried as the exception's message string).
-/

namespace SunoModel

/-- Python truthiness of an optional string value: `None` and the empty
string are falsy, every other string is truthy (models `if not self.sid`,
`if self.sid:`, `if audio_url:`). -/
def truthy : Option String → Bool
  | none => false
  | some s => !(s == "")

/-- Python `str.strip()`: drop leading and trailing whitespace (an
executable rendering; `String.trim` itself does not reduce in the kernel). -/
def pyStrip (s : String) : String :=
  String.mk (((s.data.dropWhile Char.isWhitespace).reverse.dropWhile Char.isWhitespace).reverse)

/-- Python `str()` of an optional string, as used in f-string interpolation:
`None` prints as the literal text "None". -/
def pyStr : Option String → String
  | none => "None"
  | some s => s

/-- Does the character list `hay` start with `needle`? (helper for the
substring test below). -/
def leadsWith : List Char → List Char → Bool
  | [], _ => true
  | _ :: _, [] => false
  | a :: as, b :: bs => a == b && leadsWith as bs

/-- Is `needle` a contiguous subsequence of `hay`? -/
def containsSeq (needle : List Char) : List Char → Bool
  | [] => needle.isEmpty
  | b :: bs => leadsWith needle (b :: bs) || containsSeq needle bs

/-- Python's `needle in hay` substring test on strings, used by
`_handle_generation_error` ("Insufficient credits" in error_message) and by
the fallback loop in `main` ("Insufficient credits" in str(e)). -/
def strContains (needle hay : String) : Bool := containsSeq needle.data hay.data

/-- One HTTP request issued by the client, identified by endpoint (and the
query it carries where a claim depends on it). -/
inductive ReqEvent where
  /-- POST /v1/client/sign_ins -/
  | signInPost
  /-- POST /v1/client/sign_ins/{id}/prepare_first_factor -/
  | preparePost
  /-- POST /v1/client/sign_ins/{id}/attempt_first_factor -/
  | attemptPost
  /-- POST /v1/client/sessions/{sid}/tokens (token renewal) -/
  | renewPost
  /-- POST /api/generate/v2/ -/
  | generatePost
  /-- GET /api/feed/?ids={query} -/
  | feedGet (query : String)
  /-- GET of the resolved audio URL (streamed download) -/
  | audioGet (url : String)
deriving DecidableEq, Repr

/-- The mutable state of one `Suno` object: phone number plus the fields
assigned in `__init__` and mutated by the auth flow (`sid`, `current_token`,
`authorization_token`) and the session-wide `Authorization` header set by
`_keep_alive` on `self.client.headers`. -/
structure SunoState where
  phone_number : String
  sid : Option String
  current_token : Option String
  authorization_token : Option String
  client_auth_header : Option String
deriving DecidableEq, Repr

/-- The field values `__init__` sets before calling `sign_in` (the phone
number is stripped; every credential field starts as `None`). -/
def initState (phone_number : String) : SunoState :=
  { phone_number := pyStrip phone_number
    sid := none
    current_token := none
    authorization_token := none
    client_auth_header := none }

/-- Response to the token-renewal POST in `_keep_alive`: status code and the
optional `jwt` field of its JSON body. -/
structure RenewResponse where
  status_code : Nat
  jwt : Option String
deriving DecidableEq, Repr

/-- `Suno._keep_alive`: if `self.sid` is falsy, raise
"Session ID is not set. Cannot renew token." without any request; otherwise
POST the renewal, and on 200 store the response's `jwt` in `current_token`
and set the client `Authorization` header to "Bearer {token}", else raise
"Token renewal failed with status: {code}". -/
def keep_alive (st : SunoState) (resp : RenewResponse) :
    List ReqEvent × SunoState × Except String Unit :=
  if truthy st.sid then
    if resp.status_code = 200 then
      ([ReqEvent.renewPost],
       { st with current_token := resp.jwt
                 client_auth_header := some ("Bearer " ++ pyStr resp.jwt) },
       Except.ok ())
    else
      ([ReqEvent.renewPost], st,
       Except.error ("Token renewal failed with status: " ++ toString resp.status_code))
  else
    ([], st, Except.error "Session ID is not set. Cannot renew token.")

/-- Response to the `attempt_first_factor` POST in `submit_otp`: status code
and the two optional ids read from `response_json['response']`. -/
structure AttemptResponse where
  status_code : Nat
  last_active_session_id : Option String
  created_session_id : Option String
deriving DecidableEq, Repr

/-- `Suno.submit_otp`: POST the code; on 200 assign
`current_token := last_active_session_id` and `sid := created_session_id`
(in that order), then if `sid` is truthy run `_keep_alive`, else raise
"Session ID is not set. Cannot renew token."; on non-200 raise
"Failed to verify OTP". The object state mutated before a raise persists. -/
def submit_otp (st : SunoState) (sign_in_attempt_id : String) (otp_code : String)
    (resp : AttemptResponse) (renew : RenewResponse) :
    List ReqEvent × SunoState × Except String Unit :=
  if resp.status_code = 200 then
    let st1 := { st with current_token := resp.last_active_session_id
                         sid := resp.created_session_id }
    if truthy st1.sid then
      let ka := keep_alive st1 renew
      (ReqEvent.attemptPost :: ka.1, ka.2.1, ka.2.2)
    else
      ([ReqEvent.attemptPost], st1,
       Except.error "Session ID is not set. Cannot renew token.")
  else
    ([ReqEvent.attemptPost], st, Except.error "Failed to verify OTP")

/-- One entry of `supported_first_factors` in the sign-in attempt JSON; only
its optional `phone_number_id` is read. -/
structure FirstFactor where
  phone_number_id : Option String
deriving DecidableEq, Repr

/-- The sign-in attempt descriptor (`response.json()['response']` of
`sign_in`): its `id` and its list of supported first factors. -/
structure SignInAttempt where
  id : String
  supported_first_factors : List FirstFactor
deriving DecidableEq, Repr

/-- Response to the initial sign-in POST: status code, the attempt
descriptor of its JSON body, and the optional `Authorization` response
header. -/
structure SignInResponse where
  status_code : Nat
  attempt : SignInAttempt
  auth_header : Option String
deriving DecidableEq, Repr

/-- The whole remote/user environment one `Suno(...)` construction consumes:
the sign-in response, the `prepare_first_factor` status, the OTP the user
types, the `attempt_first_factor` response and the renewal response. -/
structure SignInEnv where
  sign_in_resp : SignInResponse
  prepare_status : Nat
  otp_code : String
  attempt_resp : AttemptResponse
  renew_resp : RenewResponse
deriving DecidableEq, Repr

/-- `Suno.request_otp`: if `supported_first_factors` is empty, log and
return normally (no request is sent, no exception raised); otherwise POST
`prepare_first_factor`; on 200 prompt for the OTP and run `submit_otp`, on
non-200 log "Failed to request OTP" and return normally. -/
def request_otp (st : SunoState) (sign_in_attempt : SignInAttempt) (env : SignInEnv) :
    List ReqEvent × SunoState × Except String Unit :=
  match sign_in_attempt.supported_first_factors with
  | [] => ([], st, Except.ok ())
  | _ :: _ =>
    if env.prepare_status = 200 then
      let so := submit_otp st sign_in_attempt.id env.otp_code env.attempt_resp env.renew_resp
      (ReqEvent.preparePost :: so.1, so.2.1, so.2.2)
    else
      ([ReqEvent.preparePost], st, Except.ok ())

/-- `Suno.sign_in`: POST the phone number; on 200 store the `Authorization`
response header in `authorization_token` and continue with `request_otp`; on
non-200 log the failure and return normally (no exception is raised and no
further step runs). -/
def sign_in (st : SunoState) (env : SignInEnv) :
    List ReqEvent × SunoState × Except String Unit :=
  if env.sign_in_resp.status_code = 200 then
    let st1 := { st with authorization_token := env.sign_in_resp.auth_header }
    let ro := request_otp st1 env.sign_in_resp.attempt env
    (ReqEvent.signInPost :: ro.1, ro.2.1, ro.2.2)
  else
    ([ReqEvent.signInPost], st, Except.ok ())

/-- `Suno.__init__`: build the initial state and run `sign_in`
synchronously; an exception raised anywhere in the chain propagates out of
the constructor (there is no try/except around it in `main`). -/
def mkSuno (phone_number : String) (env : SignInEnv) :
    List ReqEvent × Except String SunoState :=
  let so := sign_in (initState phone_number) env
  match so.2.2 with
  | Except.ok _ => (so.1, Except.ok so.2.1)
  | Except.error e => (so.1, Except.error e)

/-- The pool-construction loop in `main`: `suno_sessions.append(Suno(p))`
for each phone number, with no surrounding try/except — a raising
construction aborts the whole loop, a non-raising one appends its session
(whatever its credential state). -/
def buildPool : List (String × SignInEnv) → List ReqEvent × Except String (List SunoState)
  | [] => ([], Except.ok [])
  | (p, env) :: rest =>
    let m := mkSuno p env
    match m.2 with
    | Except.error e => (m.1, Except.error e)
    | Except.ok st =>
      let b := buildPool rest
      (m.1 ++ b.1,
       match b.2 with
       | Except.ok l => Except.ok (st :: l)
       | Except.error e => Except.error e)

/-- Response to the generation POST: status code, the clip ids of
`response.json()['clips']` (read on 200), and the `detail` field of the JSON
body with default "" (read by `_handle_generation_error` on failure). -/
structure GenResponse where
  status_code : Nat
  clips : List String
  detail : String
deriving DecidableEq, Repr

/-- Outcome of one `generate_song` call as seen by `main`: a returned list
of ids, a returned `None`, or a raised exception with its message. -/
inductive GenOutcome where
  | ids (l : List String)
  | returnedNone
  | raised (msg : String)
deriving DecidableEq, Repr

/-- `Suno.generate_song` with `Suno._handle_generation_error` inlined: on
200 return the clip ids; otherwise, if the response's `detail` contains
"Insufficient credits" the handler only logs and `generate_song` returns
`None`, else the handler raises "Song generation failed". -/
def generate_song (resp : GenResponse) : List ReqEvent × GenOutcome :=
  ([ReqEvent.generatePost],
   if resp.status_code = 200 then GenOutcome.ids resp.clips
   else if strContains "Insufficient credits" resp.detail then GenOutcome.returnedNone
   else GenOutcome.raised "Song generation failed")

/-- The fallback generation loop of `main` over `suno_sessions`: each
session is paired with the response its single `generate_song` call gets.
Returns the final `song_ids` (`none` models Python `None` / falsy) and the
list of phone numbers of the sessions that were handed a generation attempt,
in order. A truthy (non-empty) returned list breaks the loop; a falsy result
(`None` or `[]`) logs and continues; a raised exception whose message
contains "Insufficient credits" logs and continues; any other raised
exception logs and breaks with no ids. -/
def genLoop : List (SunoState × GenResponse) → Option (List String) × List String
  | [] => (none, [])
  | (s, r) :: rest =>
    match (generate_song r).2 with
    | GenOutcome.ids l =>
      if l.isEmpty then
        let p := genLoop rest
        (p.1, s.phone_number :: p.2)
      else (some l, [s.phone_number])
    | GenOutcome.returnedNone =>
      let p := genLoop rest
      (p.1, s.phone_number :: p.2)
    | GenOutcome.raised msg =>
      if strContains "Insufficient credits" msg then
        let p := genLoop rest
        (p.1, s.phone_number :: p.2)
      else (none, [s.phone_number])

/-- The condition under which the remote quota failure takes the
"Insufficient credits" path of `_handle_generation_error`: a non-200
generation response whose `detail` contains "Insufficient credits". -/
def isQuotaResp (r : GenResponse) : Bool :=
  (r.status_code != 200) && strContains "Insufficient credits" r.detail

/-- One clip record returned by the feed endpoint in `check_song_status`:
its `id` and `status` fields. -/
structure Clip where
  id : String
  status : String
deriving DecidableEq, Repr

/-- Response to the feed GET in `check_song_status`. -/
structure FeedResponse where
  status_code : Nat
  clips : List Clip
deriving DecidableEq, Repr

/-- `Suno.check_song_status`: GET the feed for the comma-joined ids; on 200
return `all(clip['status'] in ['streaming', 'complete'] for clip in clips)`,
on any other status log the failure and return `False`. -/
def check_song_status (song_ids : List String) (resp : FeedResponse) :
    List ReqEvent × Bool :=
  ([ReqEvent.feedGet (String.intercalate "," song_ids)],
   if resp.status_code = 200 then
     resp.clips.all (fun c => c.status == "streaming" || c.status == "complete")
   else false)

/-- The completion-poll loop of `main` (`while True: time.sleep(5); if
suno.check_song_status(song_ids): break`), with the i-th iteration's feed
response supplied by `env i` and an explicit fuel bound (the real loop has
none). Returns the trace of status requests and, when the loop breaks within
the fuel, the number of status calls made and the total time slept (5 units
before every check). -/
def pollLoop (song_ids : List String) (env : Nat → FeedResponse) :
    Nat → Nat → List ReqEvent × Option (Nat × Nat)
  | 0, _ => ([], none)
  | fuel + 1, i =>
    let c := check_song_status song_ids (env i)
    if c.2 then (c.1, some (i + 1, 5 * (i + 1)))
    else
      let p := pollLoop song_ids env fuel (i + 1)
      (c.1 ++ p.1, p.2)

/-- One record of the feed response used by `download_song`
(`response.json()[0]` is read): only its optional `audio_url` matters. -/
structure FeedRecord where
  audio_url : Option String
deriving DecidableEq, Repr

/-- Response to the single-id feed GET in `download_song`. -/
structure DownloadResponse where
  status_code : Nat
  records : List FeedRecord
deriving DecidableEq, Repr

/-- `Suno.download_song` with `Suno._download_audio` inlined: GET the feed
for the one id; on non-200 raise "Song download failed"; on 200 read
`json()[0]` (an empty list raises Python's IndexError); a falsy `audio_url`
raises "No audio URL found"; otherwise stream the audio URL — `audio_ok`
models whether that streamed GET succeeds — writing
"SunoMusic-{id}.mp3" on success and raising "Song download failed" on
failure. No token is touched anywhere in this call. -/
def download_song (song_id : String) (resp : DownloadResponse) (audio_ok : Bool) :
    List ReqEvent × Except String String :=
  if resp.status_code = 200 then
    match resp.records.head? with
    | none => ([ReqEvent.feedGet song_id], Except.error "list index out of range")
    | some rec =>
      match rec.audio_url with
      | some url =>
        if url == "" then
          ([ReqEvent.feedGet song_id], Except.error "No audio URL found")
        else if audio_ok then
          ([ReqEvent.feedGet song_id, ReqEvent.audioGet url],
           Except.ok ("SunoMusic-" ++ song_id ++ ".mp3"))
        else
          ([ReqEvent.feedGet song_id, ReqEvent.audioGet url],
           Except.error "Song download failed")
      | none => ([ReqEvent.feedGet song_id], Except.error "No audio URL found")
  else ([ReqEvent.feedGet song_id], Except.error "Song download failed")

/-- The environment one iteration of `main`'s download loop consumes: the
song id, the renewal response for the `_keep_alive()` preceding the
download, the feed response, and whether the streamed audio GET succeeds. -/
structure DownloadItem where
  song_id : String
  renew : RenewResponse
  feed : DownloadResponse
  audio_ok : Bool
deriving DecidableEq, Repr

/-- One iteration of `main`'s download loop: `suno._keep_alive()` then
`suno.download_song(song_id)`, the whole pair wrapped in try/except — an
exception from either call is logged and the loop moves on. Returns the
trace of requests this iteration issued and the session state after it. -/
def downloadStep (st : SunoState) (it : DownloadItem) : List ReqEvent × SunoState :=
  let ka := keep_alive st it.renew
  match ka.2.2 with
  | Except.error _ => (ka.1, ka.2.1)
  | Except.ok _ =>
    let d := download_song it.song_id it.feed it.audio_ok
    (ka.1 ++ d.1, ka.2.1)

/-- The download loop of `main` over `song_ids`, returning the per-iteration
request traces (in order) and the final session state. -/
def downloadLoop (st : SunoState) : List DownloadItem → List (List ReqEvent) × SunoState
  | [] => ([], st)
  | it :: rest =>
    let s := downloadStep st it
    let l := downloadLoop s.2 rest
    (s.1 :: l.1, l.2)

/-! Concrete fixtures used by witnesses and counterexamples. -/

/-- A freshly constructed, never-authenticated session state. -/
def stFresh : SunoState := initState "+15550001"

/-- A fully authenticated session state (sid established, tokens held). -/
def stActive : SunoState :=
  { phone_number := "+15550001"
    sid := some "sess_1"
    current_token := some "tok_1"
    authorization_token := some "authz_1"
    client_auth_header := some "Bearer tok_1" }

/-- A session state mid-authentication: no sid yet, but a previously stored
bearer token. -/
def stAuthing : SunoState :=
  { phone_number := "+15550001"
    sid := none
    current_token := some "old_token"
    authorization_token := some "authz_1"
    client_auth_header := none }

/-- A sign-in attempt descriptor with no supported first factors. -/
def emptyFactorAttempt : SignInAttempt := { id := "sia_1", supported_first_factors := [] }

/-- A second empty-factors attempt descriptor. -/
def emptyFactorAttempt2 : SignInAttempt := { id := "sia_2", supported_first_factors := [] }

/-- A benign construction environment (all remote steps would succeed). -/
def envOk : SignInEnv :=
  { sign_in_resp := { status_code := 200, attempt := emptyFactorAttempt, auth_header := some "authz_1" }
    prepare_status := 200
    otp_code := "000000"
    attempt_resp := { status_code := 200, last_active_session_id := some "sess_42", created_session_id := some "sess_1" }
    renew_resp := { status_code := 200, jwt := some "jwt_1" } }

/-- A construction environment whose sign-in request is answered 500. -/
def env500 : SignInEnv :=
  { sign_in_resp := { status_code := 500, attempt := emptyFactorAttempt, auth_header := none }
    prepare_status := 0
    otp_code := ""
    attempt_resp := { status_code := 0, last_active_session_id := none, created_session_id := none }
    renew_resp := { status_code := 0, jwt := none } }

/-- A quota-exhausted generation response. -/
def quotaResp : GenResponse :=
  { status_code := 402, clips := [], detail := "Insufficient credits to generate a song." }

/-- A successful generation response carrying two clip ids. -/
def okResp : GenResponse := { status_code := 200, clips := ["id1", "id2"], detail := "" }

/-- A non-quota generation failure response. -/
def badResp : GenResponse := { status_code := 500, clips := [], detail := "Internal server error" }

/-- Distinct authenticated pool members for the fallback-loop witnesses. -/
def sA : SunoState :=
  { phone_number := "+1", sid := some "sa", current_token := some "ta"
    authorization_token := none, client_auth_header := some "Bearer ta" }

/-- Second pool member. -/
def sB : SunoState :=
  { phone_number := "+2", sid := some "sb", current_token := some "tb"
    authorization_token := none, client_auth_header := some "Bearer tb" }

/-- Third pool member. -/
def sC : SunoState :=
  { phone_number := "+3", sid := some "sc", current_token := some "tc"
    authorization_token := none, client_auth_header := some "Bearer tc" }

/-- Fourth pool member. -/
def sD : SunoState :=
  { phone_number := "+4", sid := some "sd", current_token := some "td"
    authorization_token := none, client_auth_header := some "Bearer td" }

/-- Feed response: batch {A: complete, B: pending}. -/
def batchPending : FeedResponse :=
  { status_code := 200
    clips := [{ id := "A", status := "complete" }, { id := "B", status := "pending" }] }

/-- Feed response: batch {A: complete, B: streaming}. -/
def batchStreaming : FeedResponse :=
  { status_code := 200
    clips := [{ id := "A", status := "complete" }, { id := "B", status := "streaming" }] }

/-- A failed (HTTP 500) status-poll response. -/
def feedFail : FeedResponse := { status_code := 500, clips := [] }

/-- A ready status-poll response. -/
def feedReady : FeedResponse := { status_code := 200, clips := [{ id := "s1", status := "complete" }] }

/-- A not-yet-ready status-poll response. -/
def feedPending : FeedResponse := { status_code := 200, clips := [{ id := "s1", status := "pending" }] }

/-- Poll environment whose first status call fails at the HTTP level and
whose later calls report the batch ready. -/
def pollEnvC6 : Nat → FeedResponse := fun i => if i = 0 then feedFail else feedReady

/-- Poll environment that reports pending once, then ready. -/
def pollEnvC9 : Nat → FeedResponse := fun i => if i = 0 then feedPending else feedReady

/-! Theorems. -/

/-- Claim C2: a batch status check (on a successful status call) reports the
batch ready if and only if every member's status is "streaming" or
"complete". -/
theorem c2_batch_ready_iff (song_ids : List String) (resp : FeedResponse)
    (h : resp.status_code = 200) :
    (check_song_status song_ids resp).2 = true ↔
      ∀ c ∈ resp.clips, c.status = "streaming" ∨ c.status = "complete" := by
  simp [check_song_status, h, List.all_eq_true]

/-- Witness for C2: the batch {A: complete, B: streaming} is ready and the
batch {A: complete, B: pending} is not. -/
theorem c2_batch_ready_iff_witness :
    (check_song_status ["A", "B"] batchStreaming).2 = true ∧
      ¬(check_song_status ["A", "B"] batchPending).2 = true :=
  ⟨(c2_batch_ready_iff ["A", "B"] batchStreaming rfl).mpr (by decide), by decide⟩

/-- Claim C4: calling `_keep_alive` on a session whose session identifier
has not been established fails with the NoActiveSession condition
("Session ID is not set. Cannot renew token."), issues no request, and
leaves the whole state — in particular `current_token` and the client's
`Authorization` header — unchanged. -/
theorem c4_keep_alive_no_session (st : SunoState) (resp : RenewResponse)
    (h : st.sid = none) :
    keep_alive st resp =
      ([], st, Except.error "Session ID is not set. Cannot renew token.") := by
  simp [keep_alive, h, truthy]

/-- Witness for C4: a fresh unauthenticated session, even offered a renewal
response that would succeed, fails without touching its state. -/
theorem c4_keep_alive_no_session_witness :
    keep_alive stFresh { status_code := 200, jwt := some "jwt_1" } =
      ([], stFresh, Except.error "Session ID is not set. Cannot renew token.") :=
  c4_keep_alive_no_session stFresh { status_code := 200, jwt := some "jwt_1" } rfl

/-- Counterexample to C7 as stated: on an attempt with no supported first
factors, `request_otp` sends no prepare request (that part holds) but
returns normally with `Except.ok ()` — no ChallengeUnavailable failure is
surfaced to the caller; the failure is only logged. -/
theorem c7_empty_factors_cex :
    request_otp stFresh emptyFactorAttempt envOk = ([], stFresh, Except.ok ()) := rfl

/-- Claim C7 (amended): when the attempt's list of supported first factors
is empty, `request_otp` sends no prepare request and returns normally with
the failure only logged — it is a silent no-op from the caller's point of
view, not a surfaced ChallengeUnavailable failure. -/
theorem c7_empty_factors_silent_return (st : SunoState) (sign_in_attempt : SignInAttempt)
    (env : SignInEnv) (h : sign_in_attempt.supported_first_factors = []) :
    request_otp st sign_in_attempt env = ([], st, Except.ok ()) := by
  obtain ⟨i, fs⟩ := sign_in_attempt
  have h2 : fs = [] := h
  subst h2
  rfl

/-- Witness for C7 (amended) at a distinct concrete input. -/
theorem c7_empty_factors_silent_return_witness :
    request_otp stActive emptyFactorAttempt2 envOk = ([], stActive, Except.ok ()) :=
  c7_empty_factors_silent_return stActive emptyFactorAttempt2 envOk rfl

/-- Claim C10: when the OTP-verification response is 200 but carries no
`created_session_id`, `submit_otp` raises the SessionNotEstablished
condition only after `current_token` has already been overwritten with the
response's `last_active_session_id`: the returned (persisting) object state
carries the new token value even though the call raised. -/
theorem c10_submit_otp_overwrites_token_before_raise (st : SunoState)
    (sign_in_attempt_id otp_code : String) (resp : AttemptResponse)
    (renew : RenewResponse) (h200 : resp.status_code = 200)
    (hsid : resp.created_session_id = none) :
    submit_otp st sign_in_attempt_id otp_code resp renew =
      ([ReqEvent.attemptPost],
       { st with current_token := resp.last_active_session_id, sid := none },
       Except.error "Session ID is not set. Cannot renew token.") := by
  simp [submit_otp, h200, hsid, truthy]

/-- Witness for C10: a state holding token "old_token" ends the failing call
holding "sess_42" — the overwrite survives the raise. -/
theorem c10_submit_otp_overwrites_token_before_raise_witness :
    submit_otp stAuthing "sia_1" "123456"
        { status_code := 200, last_active_session_id := some "sess_42", created_session_id := none }
        { status_code := 200, jwt := some "jwt_1" } =
      ([ReqEvent.attemptPost],
       { stAuthing with current_token := some "sess_42", sid := none },
       Except.error "Session ID is not set. Cannot renew token.") :=
  c10_submit_otp_overwrites_token_before_raise stAuthing "sia_1" "123456"
    { status_code := 200, last_active_session_id := some "sess_42", created_session_id := none }
    { status_code := 200, jwt := some "jwt_1" } rfl rfl

/-- A quota-exhausted response takes `_handle_generation_error`'s logging
path and makes `generate_song` return `None`. -/
theorem generate_song_quota (r : GenResponse) (h : isQuotaResp r = true) :
    (generate_song r).2 = GenOutcome.returnedNone := by
  unfold isQuotaResp at h
  rw [Bool.and_eq_true] at h
  obtain ⟨h1, h2⟩ := h
  rw [bne_iff_ne] at h1
  simp [generate_song, h1, h2]

/-- Claim C1: over a pool whose first accounts all hit the quota-exhausted
condition and whose next account's generation succeeds with a (non-empty)
list of clip ids, the fallback loop of `main` returns that account's ids,
hands a generation attempt to exactly those first `qs.length + 1` accounts
(one generation call each), and touches no account after the successful
one. -/
theorem c1_fallback_first_success (qs : List (SunoState × GenResponse))
    (hq : ∀ p ∈ qs, isQuotaResp p.2 = true)
    (s : SunoState) (r : GenResponse)
    (h200 : r.status_code = 200) (hne : r.clips ≠ [])
    (rest : List (SunoState × GenResponse)) :
    genLoop (qs ++ (s, r) :: rest) =
        (some r.clips, qs.map (fun p => p.1.phone_number) ++ [s.phone_number]) ∧
      (genLoop (qs ++ (s, r) :: rest)).2.length = qs.length + 1 := by
  have hmain : genLoop (qs ++ (s, r) :: rest) =
      (some r.clips, qs.map (fun p => p.1.phone_number) ++ [s.phone_number]) := by
    induction qs with
    | nil =>
      cases hc : r.clips with
      | nil => exact absurd hc hne
      | cons a l =>
        have hgen : (generate_song r).2 = GenOutcome.ids (a :: l) := by
          simp [generate_song, h200, hc]
        simp [genLoop, hgen, hc]
    | cons p ps ih =>
      obtain ⟨sq, rq⟩ := p
      have hgen := generate_song_quota rq (hq (sq, rq) (List.mem_cons_self _ _))
      have ih2 := ih fun q hq2 => hq q (List.mem_cons_of_mem _ hq2)
      simp [genLoop, hgen, ih2]
  refine ⟨hmain, ?_⟩
  rw [hmain]
  simp

/-- Witness for C1: two quota-exhausted accounts, then a success with ids
["id1", "id2"]; a fourth account sits untouched behind the successful one. -/
theorem c1_fallback_first_success_witness :
    genLoop [(sA, quotaResp), (sB, quotaResp), (sC, okResp), (sD, badResp)] =
        (some ["id1", "id2"], ["+1", "+2", "+3"]) ∧
      (genLoop [(sA, quotaResp), (sB, quotaResp), (sC, okResp), (sD, badResp)]).2.length = 3 :=
  c1_fallback_first_success [(sA, quotaResp), (sB, quotaResp)] (by decide)
    sC okResp rfl (by decide) [(sD, badResp)]

/-- Claim C5: in the fallback loop, a quota-exhausted failure on one account
(non-200 with "Insufficient credits" in the response detail) makes the loop
continue with the remaining accounts, while any other generation failure
(non-200 without that marker, which raises "Song generation failed") stops
the loop at that account with no ids and no further attempts. -/
theorem c5_fallback_error_policy (s : SunoState) (r : GenResponse)
    (rest : List (SunoState × GenResponse)) (h : r.status_code ≠ 200) :
    (strContains "Insufficient credits" r.detail = true →
      genLoop ((s, r) :: rest) = ((genLoop rest).1, s.phone_number :: (genLoop rest).2)) ∧
    (strContains "Insufficient credits" r.detail = false →
      genLoop ((s, r) :: rest) = (none, [s.phone_number])) := by
  constructor
  · intro hc
    have hgen : (generate_song r).2 = GenOutcome.returnedNone := by
      simp [generate_song, h, hc]
    simp [genLoop, hgen]
  · intro hc
    have hgen : (generate_song r).2 = GenOutcome.raised "Song generation failed" := by
      simp [generate_song, h, hc]
    have hmsg : strContains "Insufficient credits" "Song generation failed" = false := by
      decide
    simp [genLoop, hgen, hmsg]

/-- Witness for C5: the quota account is skipped (the success behind it is
reached), while the non-quota failure stops the loop before the very same
second account. -/
theorem c5_fallback_error_policy_witness :
    genLoop [(sA, quotaResp), (sB, okResp)] =
        ((genLoop [(sB, okResp)]).1, sA.phone_number :: (genLoop [(sB, okResp)]).2) ∧
      genLoop [(sA, badResp), (sB, okResp)] = (none, ["+1"]) :=
  ⟨(c5_fallback_error_policy sA quotaResp [(sB, okResp)] (by decide)).1 (by decide),
   (c5_fallback_error_policy sA badResp [(sB, okResp)] (by decide)).2 (by decide)⟩

/-- Counterexample to C3 as stated: an account whose sign-in is answered 500
is still delivered into the session pool by the construction loop (its
session state merely stays unauthenticated), and the fallback loop does hand
it a generation attempt — it is not excluded. -/
theorem c3_sign_in_failure_cex :
    (buildPool [("+15550001", env500)]).2 = Except.ok [initState "+15550001"] ∧
      (genLoop [(initState "+15550001", quotaResp)]).2 = ["+15550001"] := by
  constructor
  · rfl
  · rfl

/-- Claim C3 (amended): a non-2xx sign-in response is only logged: the
constructor returns normally with a fully unauthenticated state (so
construction of the rest of the pool is indeed not aborted), but the account
is NOT excluded from the pool — its session is appended like any other, and
whenever the fallback loop reaches it, it is handed a generation attempt
(its phone number heads the attempt list from that point). -/
theorem c3_sign_in_failure_not_excluded (phone_number : String) (env : SignInEnv)
    (h : env.sign_in_resp.status_code ≠ 200)
    (r : GenResponse) (rest : List (SunoState × GenResponse)) :
    mkSuno phone_number env = ([ReqEvent.signInPost], Except.ok (initState phone_number)) ∧
      (genLoop ((initState phone_number, r) :: rest)).2.head? =
        some (initState phone_number).phone_number := by
  constructor
  · simp [mkSuno, sign_in, h]
  · cases hg : (generate_song r).2 with
    | ids l =>
      by_cases hl : l.isEmpty
      · simp [genLoop, hg, hl]
      · simp [genLoop, hg, hl]
    | returnedNone => simp [genLoop, hg]
    | raised msg =>
      by_cases hm : strContains "Insufficient credits" msg = true
      · simp [genLoop, hg, hm]
      · simp [genLoop, hg, Bool.eq_false_iff.mpr hm]

/-- Witness for C3 (amended) at a concrete failing sign-in. -/
theorem c3_sign_in_failure_not_excluded_witness :
    mkSuno "+15550002" env500 = ([ReqEvent.signInPost], Except.ok (initState "+15550002")) ∧
      (genLoop [(initState "+15550002", badResp)]).2.head? =
        some (initState "+15550002").phone_number :=
  c3_sign_in_failure_not_excluded "+15550002" env500 (by decide) badResp []

/-- Counterexample to C6 as stated: the first status-poll HTTP call fails
(500) — `check_song_status` absorbs it into `false` instead of failing its
caller, and the poll loop of `main` re-issues the identical feed request on
the next iteration (the trace holds the same request twice) and carries on
to a normal termination. -/
theorem c6_status_poll_absorbed_cex :
    (check_song_status ["s1"] feedFail).2 = false ∧
      pollLoop ["s1"] pollEnvC6 5 0 =
        ([ReqEvent.feedGet "s1", ReqEvent.feedGet "s1"], some (2, 10)) := by
  constructor
  · rfl
  · rfl

/-- Claim C6 (amended): each core operation issues its HTTP request at most
once and surfaces a non-success response to its caller immediately (token
renewal raises, a failed download feed GET raises) — except the status poll:
a failed status-poll HTTP call is absorbed by `check_song_status` as a
plain not-ready `false`, and `main`'s poll loop then re-issues the identical
status request on its next iteration instead of failing. -/
theorem c6_no_retry_except_status_poll :
    (∀ (st : SunoState) (resp : RenewResponse),
      truthy st.sid = true → resp.status_code ≠ 200 →
      keep_alive st resp = ([ReqEvent.renewPost], st,
        Except.error ("Token renewal failed with status: " ++ toString resp.status_code))) ∧
    (∀ (song_id : String) (resp : DownloadResponse) (audio_ok : Bool),
      resp.status_code ≠ 200 →
      download_song song_id resp audio_ok =
        ([ReqEvent.feedGet song_id], Except.error "Song download failed")) ∧
    (∀ (song_ids : List String) (resp : FeedResponse), resp.status_code ≠ 200 →
      (check_song_status song_ids resp).2 = false) ∧
    (∀ (song_ids : List String) (env : Nat → FeedResponse) (fuel i : Nat),
      (check_song_status song_ids (env i)).2 = false →
      pollLoop song_ids env (fuel + 1) i =
        (ReqEvent.feedGet (String.intercalate "," song_ids) ::
            (pollLoop song_ids env fuel (i + 1)).1,
         (pollLoop song_ids env fuel (i + 1)).2)) := by
  refine ⟨?_, ?_, ?_, ?_⟩
  · intro st resp h1 h2
    simp [keep_alive, h1, h2]
  · intro song_id resp audio_ok h
    simp [download_song, h]
  · intro song_ids resp h
    simp [check_song_status, h]
  · intro song_ids env fuel i h
    have htr : (check_song_status song_ids (env i)).1 =
        [ReqEvent.feedGet (String.intercalate "," song_ids)] := rfl
    simp [pollLoop, h, htr]

/-- Witness for C6 (amended): each conjunct at a concrete input; in
particular the loop after a failed poll proceeds into a further poll. -/
theorem c6_no_retry_except_status_poll_witness :
    keep_alive stActive { status_code := 500, jwt := none } =
        ([ReqEvent.renewPost], stActive,
         Except.error "Token renewal failed with status: 500") ∧
      download_song "s1" { status_code := 404, records := [] } true =
        ([ReqEvent.feedGet "s1"], Except.error "Song download failed") ∧
      (check_song_status ["s1"] feedFail).2 = false ∧
      pollLoop ["s1"] pollEnvC6 2 0 =
        (ReqEvent.feedGet "s1" :: (pollLoop ["s1"] pollEnvC6 1 1).1,
         (pollLoop ["s1"] pollEnvC6 1 1).2) :=
  ⟨c6_no_retry_except_status_poll.1 stActive { status_code := 500, jwt := none }
      (by decide) (by decide),
   c6_no_retry_except_status_poll.2.1 "s1" { status_code := 404, records := [] } true
      (by decide),
   c6_no_retry_except_status_poll.2.2.1 ["s1"] feedFail (by decide),
   c6_no_retry_except_status_poll.2.2.2 ["s1"] pollEnvC6 1 0 (by decide)⟩

/-- `_keep_alive` never changes the session identifier. -/
theorem keep_alive_sid (st : SunoState) (resp : RenewResponse) :
    ((keep_alive st resp).2.1).sid = st.sid := by
  unfold keep_alive
  split
  · split <;> rfl
  · rfl

/-- `download_song` never issues a token-renewal request. -/
theorem download_song_no_renew (song_id : String) (resp : DownloadResponse)
    (audio_ok : Bool) :
    ReqEvent.renewPost ∉ (download_song song_id resp audio_ok).1 := by
  unfold download_song
  repeat' split
  all_goals simp

/-- One download-loop iteration ends in the state `_keep_alive` left. -/
theorem downloadStep_state (st : SunoState) (it : DownloadItem) :
    (downloadStep st it).2 = (keep_alive st it.renew).2.1 := by
  unfold downloadStep
  cases h : (keep_alive st it.renew).2.2 <;> simp [h]

/-- On an authenticated session, one download-loop iteration issues exactly
one renewal request, and it comes before everything else it does. -/
theorem downloadStep_trace (st : SunoState) (it : DownloadItem)
    (h : truthy st.sid = true) :
    ∃ tl, (downloadStep st it).1 = ReqEvent.renewPost :: tl ∧
      ReqEvent.renewPost ∉ tl := by
  by_cases h2 : it.renew.status_code = 200
  · refine ⟨(download_song it.song_id it.feed it.audio_ok).1, ?_,
      download_song_no_renew _ _ _⟩
    simp [downloadStep, keep_alive, h, h2]
  · refine ⟨[], ?_, by simp⟩
    simp [downloadStep, keep_alive, h, h2]

/-- Claim C8: starting from an authenticated session, every iteration of
`main`'s download loop renews the session's bearer credential exactly once,
and that renewal request precedes every other request of the iteration
(in particular the feed fetch and the audio fetch). -/
theorem c8_renew_once_per_download (st : SunoState) (items : List DownloadItem)
    (h : truthy st.sid = true) :
    ∀ tr ∈ (downloadLoop st items).1,
      ∃ tl, tr = ReqEvent.renewPost :: tl ∧ ReqEvent.renewPost ∉ tl := by
  induction items generalizing st with
  | nil =>
    intro tr htr
    simp [downloadLoop] at htr
  | cons it rest ih =>
    intro tr htr
    rw [show downloadLoop st (it :: rest) =
        ((downloadStep st it).1 :: (downloadLoop (downloadStep st it).2 rest).1,
         (downloadLoop (downloadStep st it).2 rest).2) from rfl] at htr
    rcases List.mem_cons.mp htr with h1 | h2
    · obtain ⟨tl, ht, hn⟩ := downloadStep_trace st it h
      exact ⟨tl, h1 ▸ ht, hn⟩
    · have hsid : truthy (downloadStep st it).2.sid = true := by
        rw [downloadStep_state, keep_alive_sid]
        exact h
      exact ih (downloadStep st it).2 hsid tr h2

/-- A concrete download-loop environment: one song, renewal succeeds, feed
resolves an audio URL, streamed GET succeeds. -/
def itemsW : List DownloadItem :=
  [{ song_id := "s1"
     renew := { status_code := 200, jwt := some "jwt_2" }
     feed := { status_code := 200, records := [{ audio_url := some "http-url-1" }] }
     audio_ok := true }]

/-- Witness for C8: the single iteration's trace is renew, then feed GET,
then audio GET — one renewal, first. -/
theorem c8_renew_once_per_download_witness :
    ∃ tl, [ReqEvent.renewPost, ReqEvent.feedGet "s1", ReqEvent.audioGet "http-url-1"] =
        ReqEvent.renewPost :: tl ∧ ReqEvent.renewPost ∉ tl :=
  c8_renew_once_per_download stActive itemsW (by decide)
    [ReqEvent.renewPost, ReqEvent.feedGet "s1", ReqEvent.audioGet "http-url-1"] (by decide)

/-- If no poll iteration ever reports the batch ready, the poll loop never
breaks, whatever fuel it is run with. -/
theorem pollLoop_never_ready (song_ids : List String) (env : Nat → FeedResponse)
    (h : ∀ i, (check_song_status song_ids (env i)).2 = false) :
    ∀ fuel i, (pollLoop song_ids env fuel i).2 = none := by
  intro fuel
  induction fuel with
  | zero => intro i; rfl
  | succ f ih =>
    intro i
    simp [pollLoop, h i, ih (i + 1)]

/-- If the batch first reports ready at iteration `k`, the poll loop breaks
there: with any sufficient fuel it stops after exactly `k + 1` status calls
and `5 * (k + 1)` slept time units. -/
theorem pollLoop_first_ready (song_ids : List String) (env : Nat → FeedResponse)
    (k : Nat) (hf : ∀ j, j < k → (check_song_status song_ids (env j)).2 = false)
    (ht : (check_song_status song_ids (env k)).2 = true) :
    ∀ fuel i, i ≤ k → k - i < fuel →
      (pollLoop song_ids env fuel i).2 = some (k + 1, 5 * (k + 1)) := by
  intro fuel
  induction fuel with
  | zero =>
    intro i h1 h2
    omega
  | succ f ih =>
    intro i h1 h2
    by_cases hik : i = k
    · subst hik
      simp [pollLoop, ht]
    · have hlt : i < k := lt_of_le_of_ne h1 hik
      simp [pollLoop, hf i hlt]
      exact ih (i + 1) hlt (by omega)

/-- Claim C9: the completion poller sleeps a fixed 5 time-units before every
status call and terminates exactly when the batch first reports ready — at
the first ready iteration `k` it stops, for every sufficient fuel, after
`k + 1` status calls and `5 * (k + 1)` slept units; and if the batch never
reports ready it never breaks, for any fuel whatsoever (no upper bound on
the number of attempts exists). -/
theorem c9_poll_terminates_iff_ready (song_ids : List String)
    (env : Nat → FeedResponse) :
    ((∀ i, (check_song_status song_ids (env i)).2 = false) →
       ∀ fuel i, (pollLoop song_ids env fuel i).2 = none) ∧
    (∀ k, (∀ j, j < k → (check_song_status song_ids (env j)).2 = false) →
       (check_song_status song_ids (env k)).2 = true →
       ∀ fuel, k < fuel →
       (pollLoop song_ids env fuel 0).2 = some (k + 1, 5 * (k + 1))) :=
  ⟨fun h => pollLoop_never_ready song_ids env h,
   fun k hf ht fuel hfu =>
     pollLoop_first_ready song_ids env k hf ht fuel 0 (Nat.zero_le k) (by omega)⟩

/-- Witness for C9: pending once then ready — the loop stops after two
status calls and ten slept time units. -/
theorem c9_poll_terminates_iff_ready_witness :
    (pollLoop ["s1"] pollEnvC9 3 0).2 = some (2, 10) :=
  (c9_poll_terminates_iff_ready ["s1"] pollEnvC9).2 1 (by decide) (by decide) 3 (by decide)

end SunoModel
